import Mathlib

/-!
Shallow embedding of the smartppt outline pipeline and presentation writer.

The Python sources embedded here are:
 - `src/llm/llm_api.py` (class `LLMApi`): outline generation with a
   three-tier recovery pipeline (JSON parse, heuristic text extraction,
   synthetic fallback generation);
 - `src/writer/ppt_writer.py` (class `PPTWriter`): blank-deck and
   template-based rendering.

Python strings are modelled as `List Char` where character-level operations
(strip, split, startswith, lstrip, lowercasing, substring membership) are
needed, and as `String` for stored text fields.  Machine-level effects
(HTTP, file I/O, stdout diagnostics) are modelled by explicit outcome data:
the result of the single HTTP call is an input to the embedded functions,
and diagnostic printing is dropped since it has no effect on return values.
-/

namespace SmartPPT

/-! ### Python string primitives over `List Char` -/

/-- Python `str.strip()`: drop leading and trailing whitespace. -/
def pyStrip (s : List Char) : List Char :=
  ((s.dropWhile Char.isWhitespace).reverse.dropWhile Char.isWhitespace).reverse

/-- Python `str.split(sep)` for a single-character separator, as used by
`text.split('\n')` in `_extract_content_from_text`. -/
def splitOnChar (c : Char) : List Char → List (List Char)
  | [] => [[]]
  | a :: rest =>
    let r := splitOnChar c rest
    if a == c then [] :: r
    else
      match r with
      | [] => [[a]]
      | h :: t => (a :: h) :: t

/-- Python `str.lower()` (character-wise lowercasing). -/
def lowerL (s : List Char) : List Char := s.map Char.toLower

/-- Python `needle in haystack` substring membership. -/
def isSubL (needle : List Char) : List Char → Bool
  | [] => needle.isEmpty
  | c :: rest => needle.isPrefixOf (c :: rest) || isSubL needle rest

/-- Python `line.startswith(tuple_of_prefixes)`. -/
def startsWithAny (ps : List (List Char)) (s : List Char) : Bool :=
  ps.any (fun p => p.isPrefixOf s)

/-- Python `str.lstrip(chars)`: drop leading characters drawn from a set. -/
def lstripSet (set : List Char) (s : List Char) : List Char :=
  s.dropWhile (fun c => set.contains c)

/-- Python `line.split(':', 1)[1] if ':' in line else line`
(everything after the first colon, or the whole line when there is none). -/
def afterFirstColon (s : List Char) : List Char :=
  if s.contains ':' then (s.dropWhile (fun c => c != ':')).tail else s

/-! ### Data model (§3 of the spec, shapes produced by `llm_api.py`) -/

/-- A supporting fact: either the structured dict
`{"fact": ..., "explanation": ...}` or the legacy bare string
(`llm_api.py`, consumed in `ppt_writer.py` lines 167-180). -/
inductive Fact where
  | structured (fact : String) (explanation : String)
  | legacy (text : String)
deriving DecidableEq

/-- A main point dict: `{"main_point": ..., "supporting_facts": [...]}`. -/
structure MainPoint where
  main_point : String
  supporting_facts : List Fact
deriving DecidableEq

/-- A slide dict: `{"title": ..., "summary": ..., "points": [...]}`. -/
structure SlidePage where
  title : String
  summary : String
  points : List MainPoint
deriving DecidableEq

/-! ### Synthetic fallback generation (`LLMApi._generate_fallback_content`,
`llm_api.py` lines 283-470) -/

/-- First fallback slide: the introduction page (lines 289-346). -/
def introSlide (topic : String) : SlidePage :=
  { title := topic ++ " - 介绍"
    summary := "今天我们将深入探讨" ++ topic ++
      "这个精彩话题，它包含了丰富的内容和深刻的内涵，让我们一起揭开它的神秘面纱。"
    points :=
      [ { main_point := "什么是" ++ topic
          supporting_facts :=
            [Fact.structured (topic ++ "的基本定义和概念") "核心概念解释",
             Fact.structured (topic ++ "在相关领域中的地位") "重要性和影响力"] },
        { main_point := topic ++ "的重要性"
          supporting_facts :=
            [Fact.structured "对行业发展的推动作用" "促进产业升级",
             Fact.structured "对用户需求的满足程度" "解决实际问题"] },
        { main_point := topic ++ "的发展历程"
          supporting_facts :=
            [Fact.structured (topic ++ "的历史背景") "发展起源",
             Fact.structured (topic ++ "的发展阶段") "关键里程碑"] },
        { main_point := "本次演讲的主要内容"
          supporting_facts :=
            [Fact.structured ("将涵盖" ++ topic ++ "的各个方面") "全面分析",
             Fact.structured "提供详细的分析和数据支持" "数据支撑"] } ] }

/-- Middle fallback slide for Python loop index `i`
(`for i in range(1, num_pages - 1)`, lines 349-407). -/
def partSlide (topic : String) (i : Nat) : SlidePage :=
  { title := topic ++ s!" - 第{i + 1}部分"
    summary := "在了解了" ++ topic ++ s!"的基础知识后，现在让我们深入探讨它的第{i + 1}个重要方面，这里有许多令人惊喜的发现。"
    points :=
      [ { main_point := topic ++ s!"的第{i + 1}个核心要点"
          supporting_facts :=
            [Fact.structured (topic ++ "的具体表现和特征") "关键特征",
             Fact.structured (topic ++ "相关数据和统计") "数据支撑"] },
        { main_point := topic ++ s!"的第{i + 1}个关键因素"
          supporting_facts :=
            [Fact.structured (topic ++ "影响因素分析") "驱动因素",
             Fact.structured (topic ++ "市场反应和反馈") "市场表现"] },
        { main_point := topic ++ s!"的第{i + 1}个发展趋势"
          supporting_facts :=
            [Fact.structured (topic ++ "当前发展状况") "现状分析",
             Fact.structured (topic ++ "未来发展方向") "前景展望"] },
        { main_point := topic ++ s!"的第{i + 1}个应用案例"
          supporting_facts :=
            [Fact.structured (topic ++ "实际应用案例") "实践案例",
             Fact.structured (topic ++ "成功经验分享") "经验总结"] } ] }

/-- Last fallback slide: the summary page, appended only when
`num_pages > 1` (lines 410-468). -/
def summarySlide (topic : String) : SlidePage :=
  { title := topic ++ " - 总结"
    summary := "经过深入的探讨，我们对" ++ topic ++
      "有了全面的了解，现在让我们回顾一下最重要的发现和未来的发展方向。"
    points :=
      [ { main_point := topic ++ "主要内容回顾"
          supporting_facts :=
            [Fact.structured ("涵盖的" ++ topic ++ "关键知识点") "核心要点",
             Fact.structured (topic ++ "重要的数据和案例") "数据支撑"] },
        { main_point := topic ++ "关键要点总结"
          supporting_facts :=
            [Fact.structured (topic ++ "最重要的几个方面") "重点内容",
             Fact.structured (topic ++ "需要重点关注的内容") "关注重点"] },
        { main_point := topic ++ "未来展望"
          supporting_facts :=
            [Fact.structured (topic ++ "发展趋势预测") "发展前景",
             Fact.structured (topic ++ "潜在机遇分析") "机会识别"] },
        { main_point := topic ++ "行动建议"
          supporting_facts :=
            [Fact.structured (topic ++ "具体实施建议") "操作指导",
             Fact.structured (topic ++ "下一步行动计划") "行动方案"] } ] }

/-- `LLMApi._generate_fallback_content(topic, num_pages)`: the intro slide
is appended unconditionally, then one `partSlide` per Python loop index
`i ∈ range(1, num_pages - 1)`, then the summary slide if `num_pages > 1`. -/
def generate_fallback_content (topic : String) (num_pages : Nat) : List SlidePage :=
  [introSlide topic]
    ++ (List.range (num_pages - 2)).map (fun k => partSlide topic (k + 1))
    ++ (if 1 < num_pages then [summarySlide topic] else [])

/-! ### Heuristic text extraction (`LLMApi._extract_content_from_text`,
`llm_api.py` lines 210-281) -/

/-- Page-marker keywords: `['第', 'page', 'slide', '页']` (line 223). -/
def pageKeywords : List (List Char) := [['第'], "page".data, "slide".data, ['页']]

/-- Summary-marker prefixes: `('总结', 'summary', '概述')` (line 232). -/
def summaryMarkers : List (List Char) := ["总结".data, "summary".data, "概述".data]

/-- Bullet prefixes: `('-', '•', '*', '1.', '2.', '3.')` (line 236). -/
def bulletMarkers : List (List Char) := [['-'], ['•'], ['*'], "1.".data, "2.".data, "3.".data]

/-- Indentation prefixes: `('  ', '\t', '  -', '  •')` (line 245). -/
def indentMarkers : List (List Char) := [[' ', ' '], ['\t'], "  -".data, "  •".data]

/-- Character set of `line.lstrip('-•*123456789. ')` (line 238). -/
def pointStripSet : List Char := "-•*123456789. ".data

/-- Character set of `line.lstrip(' \t-•*')` (line 247). -/
def factStripSet : List Char := [' ', '\t', '-', '•', '*']

/-- Loop state of `_extract_content_from_text`: completed pages, the
current page (`current_page`), and whether `current_point` is set.  In the
source `current_point`, when set, is always the last point of
`current_page["points"]` (it is reset to `None` whenever a page starts). -/
structure ExtractState where
  pages : List SlidePage
  current : Option SlidePage
  hasPoint : Bool
deriving DecidableEq

/-- In-place `current_point["supporting_facts"].append(fact)`: the current
point is the last element of the current page's point list. -/
def appendFactToLast (points : List MainPoint) (fact : Fact) : List MainPoint :=
  match points with
  | [] => []
  | [p] => [{ p with supporting_facts := p.supporting_facts ++ [fact] }]
  | p :: rest => p :: appendFactToLast rest fact

/-- One iteration of the `for line in lines` loop (lines 217-249).  Note
that the source strips each line (`line = line.strip()`) before every
prefix test, including the indentation test of line 245. -/
def extractStep (st : ExtractState) (rawLine : List Char) : ExtractState :=
  let line := pyStrip rawLine
  if line.isEmpty then st
  else if pageKeywords.any (fun kw => isSubL kw (lowerL line)) then
    { pages := st.pages ++ st.current.toList
      current := some { title := String.mk line
                        summary := String.mk line ++ "的主要内容概述"
                        points := [] }
      hasPoint := false }
  else if st.current.isSome && startsWithAny summaryMarkers line then
    { st with current := st.current.map fun pg =>
                { pg with summary := String.mk (afterFirstColon line) } }
  else if st.current.isSome && startsWithAny bulletMarkers line then
    let pointText := lstripSet pointStripSet line
    if pointText.isEmpty then st
    else
      { st with
        current := st.current.map fun pg =>
                     { pg with points := pg.points ++
                         [{ main_point := String.mk pointText,
                            supporting_facts := [] }] }
        hasPoint := true }
  else if st.hasPoint && startsWithAny indentMarkers line then
    let fact := lstripSet factStripSet line
    if fact.isEmpty then st
    else
      { st with current := st.current.map fun pg =>
                  { pg with
                    points := appendFactToLast pg.points (Fact.legacy (String.mk fact)) } }
  else st

/-- Padding slide appended by the `while len(pages) < num_pages` loop,
where `idx = len(pages) + 1` at append time (lines 255-275). -/
def padSlide (idx : Nat) : SlidePage :=
  { title := s!"第{idx}页"
    summary := s!"第{idx}页的主要内容概述"
    points := (List.range 3).map (fun i =>
      { main_point := s!"要点{idx}-{i + 1}"
        supporting_facts :=
          [Fact.structured s!"事实{idx}-{i + 1}-1" "简要说明",
           Fact.structured s!"事实{idx}-{i + 1}-2" "简要说明"] }) }

/-- The `while len(pages) < num_pages` padding loop (lines 255-275),
written with explicit fuel so that it is structurally recursive; each
iteration grows the list by one slide, so `num_pages` iterations always
reach the loop's exit condition. -/
def padPagesFuel : Nat → List SlidePage → Nat → List SlidePage
  | 0, ps, _ => ps
  | fuel + 1, ps, num_pages =>
    if ps.length < num_pages then
      padPagesFuel fuel (ps ++ [padSlide (ps.length + 1)]) num_pages
    else ps

/-- The `while len(pages) < num_pages` padding loop (lines 255-275). -/
def padPages (ps : List SlidePage) (num_pages : Nat) : List SlidePage :=
  padPagesFuel num_pages ps num_pages

/-- `LLMApi._extract_content_from_text(text, num_pages)`: a linear pass
over the lines, then pad to at least `num_pages` and truncate to at most
`num_pages`. -/
def extract_content_from_text (text : List Char) (num_pages : Nat) : List SlidePage :=
  let finalState := (splitOnChar '\n' text).foldl extractStep ⟨[], none, false⟩
  let pages := finalState.pages ++ finalState.current.toList
  let padded := padPages pages num_pages
  if num_pages < padded.length then padded.take num_pages else padded

/-! ### Response parsing and the top-level outline call
(`llm_api.py` lines 23-46, 136-167, 169-208) -/

/-- Abstraction of `json.loads` applied to the fence-stripped response
text: the parse yields a list, yields a non-list value, or raises.  The
parse result is an input to the embedding because JSON decoding itself is
outside the embedded code. -/
inductive ParsedJson where
  | jsonList (content : List SlidePage)
  | notList
  | parseFailure
deriving DecidableEq

/-- `LLMApi._parse_outline_response(response, num_pages)` (lines 169-208):
on a parsed list, adjust the length (return as-is, truncate, or pad with
fallback content for the placeholder topic `"补充内容"`); on a non-list
value or a parse exception, fall through to heuristic text extraction on
the original response text. -/
def parse_outline_response (parsed : ParsedJson) (rawText : List Char)
    (num_pages : Nat) : List SlidePage :=
  match parsed with
  | ParsedJson.jsonList content =>
    if content.length = num_pages then content
    else if num_pages < content.length then content.take num_pages
    else content ++ generate_fallback_content "补充内容" (num_pages - content.length)
  | ParsedJson.notList => extract_content_from_text rawText num_pages
  | ParsedJson.parseFailure => extract_content_from_text rawText num_pages

/-- Outcome of the one `requests.post` call in `_call_llm`: a network-level
exception, or an HTTP response with a status code and, when the body and
its `choices[0].message.content` field decode, the content string. -/
inductive HttpResult where
  | exn (msg : String)
  | response (status : Nat) (content : Option String)
deriving DecidableEq

/-- `LLMApi._call_llm(prompt)` (lines 136-167): raises when the API key is
unset, on a network exception, on a non-200 status, or when the response
body fails to decode; otherwise returns the content string. -/
def call_llm (apiKey : Option String) (http : HttpResult) : Except String String :=
  match apiKey with
  | none => Except.error "API密钥未设置"
  | some _ =>
    match http with
    | HttpResult.exn msg => Except.error msg
    | HttpResult.response status body =>
      if status ≠ 200 then Except.error (s!"API调用失败: {status}")
      else
        match body with
        | none => Except.error "响应体解析失败"
        | some c => Except.ok c

/-- `LLMApi.generate_outline(topic, num_pages)` (lines 23-46): any
exception from `_call_llm` is caught and converted to the synthetic
fallback outline; otherwise the response is parsed.  `parsed` is the JSON
parse result of the successful response's content. -/
def generate_outline (apiKey : Option String) (http : HttpResult)
    (parsed : ParsedJson) (topic : String) (num_pages : Nat) : List SlidePage :=
  match call_llm apiKey http with
  | Except.error _ => generate_fallback_content topic num_pages
  | Except.ok content => parse_outline_response parsed content.data num_pages

/-! ### Presentation writer (`src/writer/ppt_writer.py`) -/

/-- One formatted text run inside a content paragraph: the rendered text
plus the styling set on it (`run.font.size` in points and
`run.font.color.rgb`). -/
structure TextRun where
  text : String
  fontSize : Nat
  color : Nat × Nat × Nat
deriving DecidableEq

/-- The per-fact run of `PPTWriter._fill_content_with_formatting`
(`ppt_writer.py` lines 167-180): a structured fact renders
`"\n   • " + fact + ": " + explanation`, a legacy bare-string fact renders
`"\n   • " + fact`; both get font size 11 and color RGB(52, 73, 94). -/
def renderFactRun (fact : Fact) : TextRun :=
  match fact with
  | Fact.structured f e =>
    { text := "\n   • " ++ f ++ ": " ++ e, fontSize := 11, color := (52, 73, 94) }
  | Fact.legacy s =>
    { text := "\n   • " ++ s, fontSize := 11, color := (52, 73, 94) }

/-- One paragraph of the custom content box: its own text, styling, and
the fact runs appended to it. -/
structure Paragraph where
  text : String
  fontSize : Nat
  bold : Bool
  color : Nat × Nat × Nat
  runs : List TextRun
deriving DecidableEq

/-- The summary paragraph (`ppt_writer.py` lines 134-144). -/
def renderSummaryParagraph (summary : String) : Paragraph :=
  { text := "📋 " ++ summary, fontSize := 14, bold := true,
    color := (52, 73, 94), runs := [] }

/-- One main-point paragraph for 1-based index `i`
(`ppt_writer.py` lines 149-182): bold header line `"{i}. {main_point}"`
with one run per supporting fact. -/
def renderPointParagraph (i : Nat) (point : MainPoint) : Paragraph :=
  { text := s!"{i}. " ++ point.main_point, fontSize := 13, bold := true,
    color := (44, 62, 80), runs := point.supporting_facts.map renderFactRun }

/-- The whole content box of one slide
(`PPTWriter._fill_content_with_formatting`): the summary paragraph, then
one paragraph per point, numbered from 1 (`enumerate(points, 1)`). -/
def renderBody (page : SlidePage) : List Paragraph :=
  renderSummaryParagraph page.summary
    :: page.points.mapIdx (fun i p => renderPointParagraph (i + 1) p)

/-- One slide of the blank-deck output: the layout index passed to
`prs.slides.add_slide`, the title, and the content paragraphs. -/
structure DeckSlide where
  layoutIndex : Nat
  title : String
  body : List Paragraph
deriving DecidableEq

/-- `PPTWriter.default_layouts` (`ppt_writer.py` lines 10-14):
`{"默认": 1, "简约": 6, "商务": 1}`. -/
def default_layouts : List (String × Nat) := [("默认", 1), ("简约", 6), ("商务", 1)]

/-- `self.default_layouts.get(style, 1)` (`ppt_writer.py` line 21);
`style` defaults to Python `None`, which is never a key. -/
def layoutIndexFor (style : Option String) : Nat :=
  match style with
  | none => 1
  | some s =>
    match default_layouts.find? (fun p => p.1 == s) with
    | some p => p.2
    | none => 1

/-- `PPTWriter.write_ppt(formatted_content, output_path, style)`
(`ppt_writer.py` lines 16-32).  The source computes
`layout_index = self.default_layouts.get(style, 1)` but then adds every
slide with the hard-coded `prs.slide_layouts[1]`; the binding below
mirrors that unused computation. -/
def write_ppt (formatted_content : List SlidePage) (output_path : String)
    (style : Option String) : String × List DeckSlide :=
  let _layout_index := layoutIndexFor style
  (output_path, formatted_content.map (fun page =>
    { layoutIndex := 1, title := page.title, body := renderBody page }))

/-- A slide layout of a template presentation: its name and the number of
placeholders it declares. -/
structure Layout where
  name : String
  placeholderCount : Nat
deriving DecidableEq

/-- Known title-layout names (`ppt_writer.py` line 254). -/
def titleLayoutNames : List (List Char) :=
  ["title slide".data, "标题幻灯片".data, "title".data]

/-- Known content-layout names (`ppt_writer.py` line 262). -/
def contentLayoutNames : List (List Char) :=
  ["title and content".data, "标题和内容".data, "content".data]

/-- `PPTWriter._find_best_layout(layouts, layout_type)`
(`ppt_writer.py` lines 247-269): scan the layouts in order and return the
first whose lowercased name is in the known set or whose placeholder count
matches (== 1 for title layouts, >= 2 for content layouts); if none
matches, return the first layout, or Python `None` when there are no
layouts at all. -/
def find_best_layout (layouts : List Layout) (layout_type : String) : Option Layout :=
  let found :=
    if layout_type == "title" then
      layouts.find? (fun l =>
        titleLayoutNames.contains (lowerL l.name.data) || l.placeholderCount == 1)
    else
      layouts.find? (fun l =>
        contentLayoutNames.contains (lowerL l.name.data) ||
          decide (2 ≤ l.placeholderCount))
  found <|> layouts.head?

/-- The layout chosen for the slide at 0-based position `i` in template
mode (`ppt_writer.py` lines 217-222): the title layout for the first slide
when one was found, otherwise `content_layout or new_prs.slide_layouts[1]`;
indexing `slide_layouts[1]` raises when the template has fewer than two
layouts, modelled as an error. -/
def chooseLayout (layouts : List Layout) (i : Nat) : Except String Layout :=
  match (if i == 0 then find_best_layout layouts "title" else none) with
  | some l => Except.ok l
  | none =>
    match find_best_layout layouts "content" with
    | some l => Except.ok l
    | none =>
      match layouts[1]? with
      | some l => Except.ok l
      | none => Except.error "IndexError: slide_layouts[1]"

/-- One slide of the templated output: the chosen layout, the title, and
the content paragraphs (`_fill_slide_content_with_template` applies the
same content-box logic as the blank-deck path). -/
structure TemplatedSlide where
  layout : Layout
  title : String
  body : List Paragraph
deriving DecidableEq

/-- The `for i, page in enumerate(formatted_content)` loop of
`write_ppt_with_template` (`ppt_writer.py` lines 217-227), propagating the
layout-indexing error if it occurs. -/
def buildTemplatedAux (layouts : List Layout) (pages : List SlidePage)
    (i : Nat) : Except String (List TemplatedSlide) :=
  match pages with
  | [] => Except.ok []
  | page :: rest =>
    match chooseLayout layouts i with
    | Except.error e => Except.error e
    | Except.ok l =>
      match buildTemplatedAux layouts rest (i + 1) with
      | Except.error e => Except.error e
      | Except.ok slides =>
        Except.ok ({ layout := l, title := page.title, body := renderBody page } :: slides)

/-- The two output shapes of the writer: a blank-deck render or a
templated render. -/
inductive PptOutput where
  | blank (slides : List DeckSlide)
  | templated (slides : List TemplatedSlide)
deriving DecidableEq

/-- `PPTWriter.write_ppt_with_template(formatted_content, template_path,
output_path, style)` (`ppt_writer.py` lines 198-235).  `templ` is the
outcome of opening the template (`Presentation(template_path)`): its
layouts, or an error when loading raises.  Any exception inside the `try`
block is caught and the call falls back to `write_ppt` with the same
content, output path and style. -/
def write_ppt_with_template (formatted_content : List SlidePage)
    (templ : Except String (List Layout)) (output_path : String)
    (style : Option String) : String × PptOutput :=
  match templ with
  | Except.error _ =>
    let r := write_ppt formatted_content output_path style
    (r.1, PptOutput.blank r.2)
  | Except.ok layouts =>
    match buildTemplatedAux layouts formatted_content 0 with
    | Except.error _ =>
      let r := write_ppt formatted_content output_path style
      (r.1, PptOutput.blank r.2)
    | Except.ok slides => (output_path, PptOutput.templated slides)

/-! ### Concrete inputs used by counterexamples and witnesses -/

/-- A minimal well-formed slide used as concrete test data. -/
def testPage : SlidePage := { title := "Test", summary := "s", points := [] }

/-- Response text whose third line carries two-space indentation;
input of the C3 evaluation. -/
def c3Input : List Char := "slide 1\n- pointA\n  factB".data

/-- A template layout with no matching name and fewer than two
placeholders. -/
def c8LayoutA : Layout := { name := "blank", placeholderCount := 0 }

/-- A second such layout, occupying index 1 of the template. -/
def c8LayoutB : Layout := { name := "second", placeholderCount := 0 }

/-- A template with no content-like layout at all. -/
def c8Layouts : List Layout := [c8LayoutA, c8LayoutB]

/-! ### Supporting lemmas -/

/-- Length of the synthetic fallback outline: one intro slide for
`num_pages ≤ 1`, exactly `num_pages` slides otherwise. -/
theorem fallback_length (t : String) (n : Nat) :
    (generate_fallback_content t n).length = if n ≤ 1 then 1 else n := by
  by_cases h : 1 < n
  · simp only [generate_fallback_content, if_pos h, List.length_append,
      List.length_cons, List.length_nil, List.length_map, List.length_range]
    rw [if_neg (by omega)]
    omega
  · simp only [generate_fallback_content, if_neg h, List.length_append,
      List.length_cons, List.length_nil, List.length_map, List.length_range]
    rw [if_pos (by omega)]
    omega

/-- Length of the fuelled padding loop, given enough fuel to reach the
exit condition. -/
theorem padPagesFuel_length (fuel : Nat) (ps : List SlidePage) (n : Nat)
    (h : n ≤ ps.length + fuel) :
    (padPagesFuel fuel ps n).length = if ps.length < n then n else ps.length := by
  induction fuel generalizing ps with
  | zero =>
    simp only [padPagesFuel]
    rw [if_neg (by omega)]
  | succ f ih =>
    rw [padPagesFuel]
    split
    · rw [ih (ps ++ [padSlide (ps.length + 1)]) (by simp; omega)]
      simp only [List.length_append, List.length_cons, List.length_nil]
      split <;> omega
    · rfl

/-- Length of the padding loop. -/
theorem padPages_length (ps : List SlidePage) (n : Nat) :
    (padPages ps n).length = if ps.length < n then n else ps.length :=
  padPagesFuel_length n ps n (by omega)

/-- The pad-then-truncate epilogue always produces exactly `n` slides. -/
theorem pad_truncate_length (p : List SlidePage) (n : Nat) :
    (if n < (padPages p n).length then (padPages p n).take n
     else padPages p n).length = n := by
  have h := padPages_length p n
  split
  · simp only [List.length_take]
    omega
  · split at h <;> omega

/-- The heuristic extractor always returns exactly `num_pages` slides. -/
theorem extract_content_length (text : List Char) (n : Nat) :
    (extract_content_from_text text n).length = n := by
  simp only [extract_content_from_text]
  exact pad_truncate_length _ n

/-- The head of a `dropWhile` result fails the predicate. -/
theorem dropWhile_head_false {α : Type} (p : α → Bool) (l : List α) (c : α)
    (rest : List α) (h : l.dropWhile p = c :: rest) : p c = false := by
  induction l with
  | nil => simp at h
  | cons a t ih =>
    rw [List.dropWhile_cons] at h
    split at h
    · exact ih h
    · rename_i hp
      injection h with h1 _
      subst h1
      exact Bool.eq_false_iff.mpr hp

/-- The first character of a stripped line is never whitespace. -/
theorem pyStrip_head_not_whitespace (s : List Char) (c : Char) (rest : List Char)
    (h : pyStrip s = c :: rest) : c.isWhitespace = false := by
  unfold pyStrip at h
  set t := s.dropWhile Char.isWhitespace with ht
  have hsuff : t.reverse.dropWhile Char.isWhitespace <:+ t.reverse :=
    List.dropWhile_suffix _
  have hpre : (t.reverse.dropWhile Char.isWhitespace).reverse <+: t.reverse.reverse :=
    List.reverse_prefix.mpr hsuff
  rw [List.reverse_reverse, h] at hpre
  obtain ⟨u, hu⟩ := hpre
  have heq : s.dropWhile Char.isWhitespace = c :: (rest ++ u) := by
    rw [← ht, ← hu]
    rfl
  exact dropWhile_head_false _ _ _ _ heq

/-- The supporting-fact guard of `_extract_content_from_text` (line 245)
is unreachable: the source strips each line first, so a non-empty stripped
line never starts with two spaces, a tab, or an indented bullet. -/
theorem indent_guard_never_fires (rawLine : List Char) :
    (pyStrip rawLine).isEmpty = true
    ∨ startsWithAny indentMarkers (pyStrip rawLine) = false := by
  cases hL : pyStrip rawLine with
  | nil => exact Or.inl rfl
  | cons c rest =>
    refine Or.inr ?_
    have hc := pyStrip_head_not_whitespace rawLine c rest hL
    have hsp : c ≠ ' ' := fun h => by subst h; exact absurd hc (by decide)
    have htb : c ≠ '\t' := fun h => by subst h; exact absurd hc (by decide)
    have e1 : (' ' == c) = false := by
      rw [beq_eq_false_iff_ne]
      exact fun h => hsp h.symm
    have e2 : ('\t' == c) = false := by
      rw [beq_eq_false_iff_ne]
      exact fun h => htb h.symm
    simp [startsWithAny, indentMarkers, List.isPrefixOf, e1, e2]

/-! ### Claim theorems -/

/-- C1: for every topic and every `num_pages ∈ [1, 20]`, `generate_outline`
returns exactly `num_pages` slides, on every path: a parsed JSON list of
any length, a response routed through heuristic text extraction, or a
`_call_llm` failure routed to synthetic fallback generation. -/
theorem C1_generate_outline_length (apiKey : Option String) (http : HttpResult)
    (parsed : ParsedJson) (topic : String) (n : Nat)
    (h1 : 1 ≤ n) (h2 : n ≤ 20) :
    (generate_outline apiKey http parsed topic n).length = n := by
  unfold generate_outline
  cases hcall : call_llm apiKey http with
  | error e =>
    rw [fallback_length]
    split <;> omega
  | ok content =>
    cases parsed with
    | jsonList c =>
      simp only [parse_outline_response]
      by_cases he : c.length = n
      · rw [if_pos he]
        exact he
      · rw [if_neg he]
        by_cases hg : n < c.length
        · rw [if_pos hg]
          simp only [List.length_take]
          omega
        · rw [if_neg hg, List.length_append, fallback_length]
          split <;> omega
    | notList => exact extract_content_length _ n
    | parseFailure => exact extract_content_length _ n

/-- C1 witness: at `num_pages = 3` on the fallback path. -/
theorem C1_witness :
    (generate_outline none (HttpResult.exn "timeout") ParsedJson.parseFailure
      "测试" 3).length = 3 :=
  C1_generate_outline_length none (HttpResult.exn "timeout")
    ParsedJson.parseFailure "测试" 3 (by decide) (by decide)

/-- C2: every `_call_llm` failure mode — API key unset, network exception,
non-200 HTTP status, or an exception while decoding the response body —
is caught by `generate_outline`, which returns the synthetic fallback
outline for the original `(topic, num_pages)` instead of raising. -/
theorem C2_failure_returns_fallback (apiKey : Option String) (http : HttpResult)
    (parsed : ParsedJson) (topic : String) (n : Nat)
    (h : apiKey = none
      ∨ (∃ m, http = HttpResult.exn m)
      ∨ (∃ s b, http = HttpResult.response s b ∧ s ≠ 200)
      ∨ (∃ s, http = HttpResult.response s none)) :
    generate_outline apiKey http parsed topic n = generate_fallback_content topic n := by
  have herr : ∃ e, call_llm apiKey http = Except.error e := by
    rcases h with rfl | ⟨m, rfl⟩ | ⟨s, b, rfl, hs⟩ | ⟨s, rfl⟩
    · exact ⟨_, rfl⟩
    · cases apiKey <;> exact ⟨_, rfl⟩
    · cases apiKey with
      | none => exact ⟨_, rfl⟩
      | some k => exact ⟨s!"API调用失败: {s}", by simp [call_llm, hs]⟩
    · cases apiKey with
      | none => exact ⟨_, rfl⟩
      | some k =>
        by_cases h200 : s = 200
        · subst h200
          exact ⟨_, rfl⟩
        · exact ⟨s!"API调用失败: {s}", by simp [call_llm, h200]⟩
  obtain ⟨e, he⟩ := herr
  unfold generate_outline
  rw [he]

/-- C2 witness: a non-200 status with the API key set. -/
theorem C2_witness :
    generate_outline (some "sk-key") (HttpResult.response 500 (some "oops"))
      ParsedJson.parseFailure "成都美食" 5 = generate_fallback_content "成都美食" 5 :=
  C2_failure_returns_fallback (some "sk-key") (HttpResult.response 500 (some "oops"))
    ParsedJson.parseFailure "成都美食" 5
    (Or.inr (Or.inr (Or.inl ⟨500, some "oops", rfl, by decide⟩)))

/-- C4: when the response parses to a JSON list, `_parse_outline_response`
returns it unchanged at length `num_pages`, truncates to the first
`num_pages` entries when longer, and when shorter appends
`num_pages - len` fallback slides generated for the placeholder topic
`"补充内容"`. -/
theorem C4_parse_list_adjustment (c : List SlidePage) (raw : List Char) (n : Nat) :
    (c.length = n → parse_outline_response (ParsedJson.jsonList c) raw n = c)
    ∧ (n < c.length → parse_outline_response (ParsedJson.jsonList c) raw n = c.take n)
    ∧ (c.length < n → parse_outline_response (ParsedJson.jsonList c) raw n =
        c ++ generate_fallback_content "补充内容" (n - c.length)) := by
  refine ⟨fun h => ?_, fun h => ?_, fun h => ?_⟩
  · simp only [parse_outline_response, if_pos h]
  · simp only [parse_outline_response]
    rw [if_neg (by omega), if_pos h]
  · simp only [parse_outline_response]
    rw [if_neg (by omega), if_neg (by omega)]

/-- C4 witness: all three length cases at concrete inputs. -/
theorem C4_witness :
    parse_outline_response (ParsedJson.jsonList [testPage]) [] 1 = [testPage]
    ∧ parse_outline_response (ParsedJson.jsonList [testPage, testPage]) [] 1 =
        [testPage, testPage].take 1
    ∧ parse_outline_response (ParsedJson.jsonList [testPage]) [] 2 =
        [testPage] ++ generate_fallback_content "补充内容" 1 :=
  ⟨(C4_parse_list_adjustment [testPage] [] 1).1 (by decide),
   (C4_parse_list_adjustment [testPage, testPage] [] 1).2.1 (by decide),
   (C4_parse_list_adjustment [testPage] [] 2).2.2 (by decide)⟩

/-- C5: fallback generation is deterministic — a pure function of
`(topic, num_pages)` built by string substitution into the fixed
templates — and structurally: for `num_pages > 1` the first slide is the
introduction slide and the last the summary slide, each carrying 4
fixed-role points of 2 facts apiece, while `num_pages = 1` yields only the
introduction slide. -/
theorem C5_fallback_deterministic_structure (t : String) (n : Nat) :
    generate_fallback_content t n = generate_fallback_content t n
    ∧ (1 < n → (generate_fallback_content t n).head? = some (introSlide t)
        ∧ (generate_fallback_content t n).getLast? = some (summarySlide t))
    ∧ generate_fallback_content t 1 = [introSlide t]
    ∧ (introSlide t).points.length = 4
    ∧ (∀ p ∈ (introSlide t).points, p.supporting_facts.length = 2)
    ∧ (summarySlide t).points.length = 4
    ∧ (∀ p ∈ (summarySlide t).points, p.supporting_facts.length = 2) := by
  refine ⟨rfl, fun h => ⟨?_, ?_⟩, ?_, rfl, ?_, rfl, ?_⟩
  · simp [generate_fallback_content]
  · simp only [generate_fallback_content, if_pos h, ← List.append_assoc]
    exact List.getLast?_concat _
  · simp [generate_fallback_content]
  · intro p hp
    simp only [introSlide, List.mem_cons, List.not_mem_nil, or_false] at hp
    rcases hp with rfl | rfl | rfl | rfl <;> rfl
  · intro p hp
    simp only [summarySlide, List.mem_cons, List.not_mem_nil, or_false] at hp
    rcases hp with rfl | rfl | rfl | rfl <;> rfl

/-- C5 witness: the structural clauses at `(topic, num_pages) = ("主题", 2)`. -/
theorem C5_witness :
    (generate_fallback_content "主题" 2).head? = some (introSlide "主题")
    ∧ (generate_fallback_content "主题" 2).getLast? = some (summarySlide "主题")
    ∧ ((introSlide "主题").points.getD 0 ⟨"", []⟩).supporting_facts.length = 2
    ∧ ((summarySlide "主题").points.getD 0 ⟨"", []⟩).supporting_facts.length = 2 := by
  have h := C5_fallback_deterministic_structure "主题" 2
  exact ⟨(h.2.1 (by decide)).1, (h.2.1 (by decide)).2,
    h.2.2.2.2.1 _ (by decide), h.2.2.2.2.2.2 _ (by decide)⟩

/-- C10: below the documented range, at `num_pages = 0`, the fallback
generator still appends the introduction slide unconditionally, so it —
and `generate_outline` on any failure path — returns a singleton list
holding the introduction slide, not an empty list. -/
theorem C10_zero_pages_intro_slide (t : String) (apiKey : Option String)
    (http : HttpResult) (parsed : ParsedJson)
    (h : ∃ e, call_llm apiKey http = Except.error e) :
    generate_fallback_content t 0 = [introSlide t]
    ∧ (generate_fallback_content t 0).length = 1
    ∧ generate_outline apiKey http parsed t 0 = [introSlide t] := by
  obtain ⟨e, he⟩ := h
  have h0 : generate_fallback_content t 0 = [introSlide t] := by
    simp [generate_fallback_content]
  refine ⟨h0, by rw [h0]; rfl, ?_⟩
  unfold generate_outline
  rw [he]
  exact h0

/-- C10 witness: the missing-API-key path at `num_pages = 0`. -/
theorem C10_witness :
    generate_outline none (HttpResult.response 200 (some "[]"))
      ParsedJson.notList "话题" 0 = [introSlide "话题"] :=
  (C10_zero_pages_intro_slide "话题" none (HttpResult.response 200 (some "[]"))
    ParsedJson.notList ⟨_, rfl⟩).2.2

/-- C3, evaluated at the failing input `"slide 1\n- pointA\n  factB"`:
the indented line `"  factB"` is stripped before the indentation test, so
it matches no branch and is dropped — the extracted point keeps empty
`supporting_facts`, where the claim requires `"factB"` to be appended as a
legacy bare-string fact. -/
theorem C3_indented_fact_dropped :
    extract_content_from_text c3Input 1 =
      [{ title := "slide 1", summary := "slide 1的主要内容概述",
         points := [{ main_point := "pointA", supporting_facts := [] }] }] := by
  decide

/-- C6: for a structured fact and a legacy bare-string fact with the same
fact text, the rendered runs agree: the structured run is the legacy run's
text (indent and bullet glyph included) joined to the explanation by the
separator `": "`, and font size and color are identical. -/
theorem C6_fact_render_equivalence (f e : String) :
    (renderFactRun (Fact.structured f e)).text =
        (renderFactRun (Fact.legacy f)).text ++ ": " ++ e
    ∧ (renderFactRun (Fact.legacy f)).text = "\n   • " ++ f
    ∧ (renderFactRun (Fact.structured f e)).fontSize =
        (renderFactRun (Fact.legacy f)).fontSize
    ∧ (renderFactRun (Fact.structured f e)).color =
        (renderFactRun (Fact.legacy f)).color :=
  ⟨rfl, rfl, rfl, rfl⟩

/-- C7: when anything raised while building the templated deck — loading
the template or choosing a slide layout — `write_ppt_with_template`
returns exactly the blank-deck writer's result for the same outline,
output path and style. -/
theorem C7_template_error_falls_back (content : List SlidePage)
    (templ : Except String (List Layout)) (path : String) (style : Option String)
    (h : (∃ e, templ = Except.error e)
      ∨ (∃ ls, templ = Except.ok ls ∧
          ∃ e, buildTemplatedAux ls content 0 = Except.error e)) :
    write_ppt_with_template content templ path style =
      ((write_ppt content path style).1,
       PptOutput.blank (write_ppt content path style).2) := by
  rcases h with ⟨e, rfl⟩ | ⟨ls, rfl, e, he⟩
  · rfl
  · simp only [write_ppt_with_template]
    rw [he]

/-- C7 witness: a template that fails to load. -/
theorem C7_witness :
    write_ppt_with_template [testPage] (Except.error "加载失败") "out.pptx" none =
      ((write_ppt [testPage] "out.pptx" none).1,
       PptOutput.blank (write_ppt [testPage] "out.pptx" none).2) :=
  C7_template_error_falls_back [testPage] (Except.error "加载失败") "out.pptx" none
    (Or.inl ⟨"加载失败", rfl⟩)

/-- C8 counterexample: `c8Layouts` has no layout matching the known
content-layout names and none with at least 2 placeholders (first
conjunct), yet the layout chosen for slide 1 is the template's FIRST
layout `c8LayoutA`, not the claimed layout at index 1 (`c8LayoutB`). -/
theorem C8_counterexample :
    (c8Layouts.map fun l =>
        contentLayoutNames.contains (lowerL l.name.data) ||
          decide (2 ≤ l.placeholderCount)) = [false, false]
    ∧ chooseLayout c8Layouts 1 = Except.ok c8LayoutA
    ∧ c8Layouts[1]? = some c8LayoutB
    ∧ c8LayoutA ≠ c8LayoutB :=
  ⟨by decide, rfl, rfl, by decide⟩

/-- C8 (amended): when no layout matches the known content-layout names
and none has at least 2 placeholders, but the template has at least one
layout, every slide after the first uses the template's first layout
(index 0), and layout selection does not raise. -/
theorem C8_amended_first_layout_fallback (layouts : List Layout) (i : Nat)
    (hno : ∀ l ∈ layouts, contentLayoutNames.contains (lowerL l.name.data) = false
        ∧ l.placeholderCount < 2)
    (hne : layouts ≠ []) (hi : 1 ≤ i) :
    chooseLayout layouts i = Except.ok (layouts.head hne) := by
  have hfind : layouts.find? (fun l =>
      contentLayoutNames.contains (lowerL l.name.data) ||
        decide (2 ≤ l.placeholderCount)) = none := by
    rw [List.find?_eq_none]
    intro l hl
    obtain ⟨h1, h2⟩ := hno l hl
    simp only [h1, Bool.false_or, decide_eq_true_eq]
    omega
  have hbest : find_best_layout layouts "content" = layouts.head? := by
    unfold find_best_layout
    rw [if_neg (by decide), hfind]
    rfl
  have hi0 : (i == 0) = false := by simp; omega
  unfold chooseLayout
  rw [hi0]
  simp only [Bool.false_eq_true, if_false]
  rw [hbest, List.head?_eq_head hne]

/-- C8 witness: the amended fallback at slide index 2 on `c8Layouts`. -/
theorem C8_witness : chooseLayout c8Layouts 2 = Except.ok c8LayoutA := by
  have h := C8_amended_first_layout_fallback c8Layouts 2 (by decide) (by decide)
    (by decide)
  exact h

/-- C9 counterexample: for style `"简约"` the fixed mapping yields layout
index 6, but the deck produced by `write_ppt` uses layout index 1 for its
slide — the mapped index is not the index used. -/
theorem C9_counterexample :
    layoutIndexFor (some "简约") = 6
    ∧ (write_ppt [testPage] "out.pptx" (some "简约")).2.map DeckSlide.layoutIndex = [1]
    ∧ (6 : Nat) ≠ 1 :=
  ⟨by decide, by decide, by decide⟩

/-- C9 (amended): `write_ppt` looks the style up in the fixed mapping
`{"默认" ↦ 1, "简约" ↦ 6, "商务" ↦ 1}` with default 1 for unmapped or
absent styles, but the computed index is unused — every slide of the deck
is added with the hard-coded layout index 1 regardless of style. -/
theorem C9_amended_mapping_unused (content : List SlidePage) (path : String)
    (style : Option String) :
    (∀ s ∈ (write_ppt content path style).2, s.layoutIndex = 1)
    ∧ layoutIndexFor (some "默认") = 1
    ∧ layoutIndexFor (some "简约") = 6
    ∧ layoutIndexFor (some "商务") = 1
    ∧ layoutIndexFor none = 1
    ∧ (∀ str, str ∉ ["默认", "简约", "商务"] → layoutIndexFor (some str) = 1) := by
  refine ⟨?_, rfl, rfl, rfl, rfl, ?_⟩
  · intro s hs
    simp only [write_ppt, List.mem_map] at hs
    obtain ⟨page, _, rfl⟩ := hs
    rfl
  · intro str hstr
    simp only [List.mem_cons, List.not_mem_nil, or_false, not_or] at hstr
    obtain ⟨h1, h2, h3⟩ := hstr
    have e1 : (("默认" : String) == str) = false := by
      rw [beq_eq_false_iff_ne]
      exact fun h => h1 h.symm
    have e2 : (("简约" : String) == str) = false := by
      rw [beq_eq_false_iff_ne]
      exact fun h => h2 h.symm
    have e3 : (("商务" : String) == str) = false := by
      rw [beq_eq_false_iff_ne]
      exact fun h => h3 h.symm
    simp [layoutIndexFor, default_layouts, List.find?, e1, e2, e3]

/-- C9 witness: the mapped-but-unused style `"简约"` and an unmapped
style both leave the deck on layout index 1. -/
theorem C9_witness :
    ((write_ppt [testPage] "o.pptx" (some "简约")).2.getD 0
        { layoutIndex := 0, title := "", body := [] }).layoutIndex = 1
    ∧ layoutIndexFor (some "样式X") = 1 := by
  have h := C9_amended_mapping_unused [testPage] "o.pptx" (some "简约")
  exact ⟨h.1 _ (by decide), (C9_amended_mapping_unused [] "" none).2.2.2.2.2 "样式X" (by decide)⟩

end SmartPPT
